import Mathlib

/-!
Verification of the recurrence and planning engine of the momentum task app.

The TypeScript source is shallowly embedded as follows.

Calendar dates: the source passes JavaScript `Date` values that every loop
advances one whole day at a time and renders through
`toISOString().split('T')[0]` into `YYYY-MM-DD` strings.  Calendar dates are in
bijection with their ISO strings, so the model represents a calendar date (and
its ISO string) by a single `Nat`: the number of days since 2023-01-01, which
was a Sunday.  Hence `getDay d = d % 7` with 0 = Sunday, exactly the JS
convention.  Timezone effects between local time and `toISOString` (UTC) are
outside the model: a day is a uniform atom.

Times: `HH:MM` strings are represented by an hour/minute pair; `timeToMinutes`
and `addMinutesToTime` mirror the source arithmetic (hours are unbounded Nat,
as in the source, which happily produces strings like `25:30`).

Floating point: confidence scores multiply the literals 1.0, 0.3, 0.6, 0.2,
0.7, 1.2 and are compared with 0.3.  All products of these literals are exact
in thousandths, so confidence is modelled as a `Nat` number of thousandths
(1000 = 1.0) and every multiplication in the source is an exact
multiply-then-divide on this grid.  Threshold comparisons of an integer count
against `max * 0.8` are modelled by the exact cross multiplication
`10 * count ≥ 8 * max`; the float rounding of e.g. `480 * 0.8` differs from the
exact value by under 1e-12 and no integer lies in between except on the exact
boundary, which the verified claims do not depend on.  The workload averages
`totalTasks / totalDays` and category percentages are genuine real-number
divisions in the source and are modelled as `ℚ`.

Wall clock: `Date.now()` suffixes inside freshly generated ids and the
`createdAt` / `updatedAt` ISO timestamps are ambient wall-clock state, not
inputs of the algorithms; ids keep their deterministic parts and timestamps
are modelled as `""`.

Loops: every `while` loop in the source advances its cursor by exactly one day
per iteration, so each is embedded as structural recursion on an explicit
iteration budget (`fuel`) that the wrapper instantiates with the exact
iteration count of the loop; `generatePreview` keeps its fuel as a parameter
because the source loop is the one loop that is not a priori bounded.

JS library semantics used: `Array.prototype.reduce` without an initial value
throws on an empty array, modelled by `reduce1 : List α → Option α` returning
`none`; `Map` iteration follows first-insertion order, modelled by
`dedupFirst`; `Array.prototype.sort` with a consistent comparator is modelled
by `List.insertionSort` with the corresponding relation (the claims proved
here do not depend on which stable sort is used); `x || d` on numbers treats 0
as absent (`jsOrNat`); indexing past the end of an array followed by a method
call on the result throws, modelled by `Option`.
-/

namespace Momentum

/-! ## Calendar model -/

/-- Day of week of a day index: 0 = Sunday (day 0, 2023-01-01, was a Sunday).
Mirrors JS `Date.prototype.getDay`. -/
def getDay (d : Nat) : Nat := d % 7

/-- Gregorian leap-year rule, as applied by the JS `Date` machinery. -/
def isLeapYear (y : Nat) : Bool := y % 4 == 0 && (y % 100 != 0 || y % 400 == 0)

def daysInYear (y : Nat) : Nat := if isLeapYear y then 366 else 365

/-- Splits a day offset into (year, zero-based offset within that year),
starting from the epoch year 2023. -/
def yearSplit (y : Nat) (d : Nat) : Nat × Nat :=
  if _h : d < daysInYear y then (y, d)
  else yearSplit (y + 1) (d - daysInYear y)
termination_by d
decreasing_by
  have hy : 365 ≤ daysInYear y := by unfold daysInYear; split <;> omega
  omega

/-- Mirrors `getDayOfYear` of `RecurringTaskService`: day of year, 1-based
(`new Date(year, 0, 0)` is Dec 31 of the previous year, so Jan 1 gives 1). -/
def getDayOfYear (d : Nat) : Nat := (yearSplit 2023 d).2 + 1

def monthLengths (leap : Bool) : List Nat :=
  [31, if leap then 29 else 28, 31, 30, 31, 30, 31, 31, 30, 31, 30, 31]

def dayOfMonthAux : List Nat → Nat → Nat
  | [], o => o + 1
  | m :: ms, o => if o < m then o + 1 else dayOfMonthAux ms (o - m)

/-- Day of month (1-based) of a day index.  Mirrors JS `Date.prototype.getDate`. -/
def getDate (d : Nat) : Nat :=
  let p := yearSplit 2023 d
  dayOfMonthAux (monthLengths (isLeapYear p.1)) p.2

/-- Mirrors `getDatesInRange` of the planning utils: every date from
`startDate` to `endDate` inclusive (empty when `endDate < startDate`). -/
def getDatesInRange (startDate endDate : Nat) : List Nat :=
  List.range' startDate (endDate + 1 - startDate)

/-! ## Data model (src/types) -/

inductive TaskCategory
  | work | personal | health | learning | social | creative | maintenance
deriving DecidableEq, Repr

/-- The string the source stores for a category (used inside messages). -/
def categoryName : TaskCategory → String
  | .work => "work"
  | .personal => "personal"
  | .health => "health"
  | .learning => "learning"
  | .social => "social"
  | .creative => "creative"
  | .maintenance => "maintenance"

inductive TaskPriority
  | low | medium | high | urgent
deriving DecidableEq, Repr

inductive TaskStatus
  | pending | inProgress | completed | cancelled
deriving DecidableEq, Repr

/-- An `HH:MM` time-of-day string.  Hours are not bounded by 24: the source
string arithmetic can produce hours past midnight. -/
structure Time where
  hour : Nat
  minute : Nat
deriving DecidableEq, Repr

inductive RecurrenceFrequency
  | daily | weekly | monthly
deriving DecidableEq, Repr

structure WeeklyRecurrenceOptions where
  daysOfWeek : List Nat
deriving DecidableEq, Repr

structure RecurrencePattern where
  type : RecurrenceFrequency
  interval : Nat
  weeklyOptions : Option WeeklyRecurrenceOptions := none
  endDate : Option Nat := none
  endAfterOccurrences : Option Nat := none
deriving DecidableEq, Repr

structure Task where
  id : String
  title : String
  description : Option String := none
  category : TaskCategory
  priority : TaskPriority
  status : TaskStatus
  scheduledDate : Nat
  scheduledTime : Option Time := none
  duration : Option Nat := none
  isRecurring : Bool
  recurrencePattern : Option RecurrencePattern := none
  xpReward : Nat
  createdAt : String := ""
  updatedAt : String := ""
  completedAt : Option String := none
deriving DecidableEq, Repr

/-- `Omit<Task, 'id' | 'createdAt' | 'updatedAt'>`: the draft shape taken by
`generateSmartSchedulingSuggestions`, `applyTaskTemplate` and
`BulkTaskCreation.tasks`. -/
structure TaskDraft where
  title : String
  description : Option String := none
  category : TaskCategory
  priority : TaskPriority
  status : TaskStatus
  scheduledDate : Nat
  scheduledTime : Option Time := none
  duration : Option Nat := none
  isRecurring : Bool
  recurrencePattern : Option RecurrencePattern := none
  xpReward : Nat
  completedAt : Option String := none
deriving DecidableEq, Repr

structure RecurringTaskTemplate where
  id : String
  title : String
  description : Option String := none
  category : TaskCategory
  priority : TaskPriority
  scheduledTime : Option Time := none
  duration : Option Nat := none
  xpReward : Nat
  recurrencePattern : RecurrencePattern
  createdAt : String := ""
  updatedAt : String := ""
  isActive : Bool := true
  lastGeneratedDate : Option Nat := none
deriving DecidableEq, Repr

structure RecurringTaskInstance extends Task where
  templateId : String
  instanceDate : Nat
  isModified : Bool
deriving DecidableEq, Repr

/-- `Partial<Task>`: each property either absent (`none`) or present with a
value of the corresponding `Task` property type.  Note that `Partial<Task>`
has no `instanceDate` or `templateId` key: those live only on
`RecurringTaskInstance`. -/
structure TaskPatch where
  id : Option String := none
  title : Option String := none
  description : Option (Option String) := none
  category : Option TaskCategory := none
  priority : Option TaskPriority := none
  status : Option TaskStatus := none
  scheduledDate : Option Nat := none
  scheduledTime : Option (Option Time) := none
  duration : Option (Option Nat) := none
  isRecurring : Option Bool := none
  recurrencePattern : Option (Option RecurrencePattern) := none
  xpReward : Option Nat := none
  createdAt : Option String := none
  updatedAt : Option String := none
  completedAt : Option (Option String) := none
deriving DecidableEq, Repr

inductive ExceptionKind
  | skip | modify
deriving DecidableEq, Repr

structure RecurrenceException where
  id : String := ""
  templateId : String
  date : Nat
  type : ExceptionKind
  modifiedTask : Option TaskPatch := none
  createdAt : String := ""
deriving DecidableEq, Repr

/-! ## Recurrence engine (RecurringTaskService) -/

/-- Mirrors `shouldGenerateDaily`: the ordinal day of year must be evenly
divisible by the interval.  (With `interval = 0` the JS modulo yields `NaN`,
which is not `=== 0`; since `getDayOfYear ≥ 1`, `Nat` modulo by 0 returns the
day of year itself, which is likewise nonzero, so both sides say `false`.) -/
def shouldGenerateDaily (date : Nat) (pattern : RecurrencePattern) : Bool :=
  getDayOfYear date % pattern.interval == 0

/-- Mirrors `shouldGenerateWeekly`: `false` when the weekday list is absent or
empty, otherwise membership of the weekday. -/
def shouldGenerateWeekly (date : Nat) (pattern : RecurrencePattern) : Bool :=
  match pattern.weeklyOptions with
  | none => false
  | some w => if w.daysOfWeek.isEmpty then false else w.daysOfWeek.contains (getDay date)

/-- Mirrors `shouldGenerateMonthly`: only the 1st of a month matches. -/
def shouldGenerateMonthly (date : Nat) (_pattern : RecurrencePattern) : Bool :=
  getDate date == 1

def shouldGenerateForDate (date : Nat) (pattern : RecurrencePattern) : Bool :=
  match pattern.type with
  | .daily => shouldGenerateDaily date pattern
  | .weekly => shouldGenerateWeekly date pattern
  | .monthly => shouldGenerateMonthly date pattern

/-- Mirrors `incrementDate`: every frequency advances by one day. -/
def incrementDate (date : Nat) (pattern : RecurrencePattern) : Nat :=
  match pattern.type with
  | .daily => date + 1
  | .weekly => date + 1
  | .monthly => date + 1

/-- Mirrors `createInstance`.  The `Date.now()` suffix inside the id and the
ISO creation timestamps are wall-clock state, modelled as deterministic parts
only (see the file header). -/
def createInstance (template : RecurringTaskTemplate) (date : Nat) :
    RecurringTaskInstance where
  id := "recurring-" ++ template.id ++ "-" ++ toString date
  templateId := template.id
  instanceDate := date
  title := template.title
  description := template.description
  category := template.category
  priority := template.priority
  status := .pending
  scheduledDate := date
  scheduledTime := template.scheduledTime
  duration := template.duration
  isRecurring := true
  recurrencePattern := some template.recurrencePattern
  xpReward := template.xpReward
  createdAt := ""
  updatedAt := ""
  isModified := false

/-- `Object.assign(instance, modifiedTask)`: overwrite each property present
on the patch.  `templateId`, `instanceDate` and `isModified` are not `Task`
properties, so a `Partial<Task>` never touches them. -/
def applyPatch (inst : RecurringTaskInstance) (p : TaskPatch) :
    RecurringTaskInstance :=
  { inst with
    id := p.id.getD inst.id
    title := p.title.getD inst.title
    description := p.description.getD inst.description
    category := p.category.getD inst.category
    priority := p.priority.getD inst.priority
    status := p.status.getD inst.status
    scheduledDate := p.scheduledDate.getD inst.scheduledDate
    scheduledTime := p.scheduledTime.getD inst.scheduledTime
    duration := p.duration.getD inst.duration
    isRecurring := p.isRecurring.getD inst.isRecurring
    recurrencePattern := p.recurrencePattern.getD inst.recurrencePattern
    xpReward := p.xpReward.getD inst.xpReward
    createdAt := p.createdAt.getD inst.createdAt
    updatedAt := p.updatedAt.getD inst.updatedAt
    completedAt := p.completedAt.getD inst.completedAt }

/-- The modify-exception step of `generateInstances`: when a `modify`
exception with a `modifiedTask` exists for this date, merge it and set
`isModified`; otherwise keep the fresh instance. -/
def applyModifyException (templateExceptions : List RecurrenceException)
    (current : Nat) (inst : RecurringTaskInstance) : RecurringTaskInstance :=
  match templateExceptions.find?
      (fun ex => ex.type == ExceptionKind.modify && ex.date == current) with
  | some ex =>
    match ex.modifiedTask with
    | some patch => { applyPatch inst patch with isModified := true }
    | none => inst
  | none => inst

/-- One loop iteration body of `generateInstances`, recursing on the number of
remaining iterations.  The source loop advances `current` by one day per
iteration and exits once `current > endDate`, so the wrapper passes
`endDate + 1 - startDate` as the exact iteration budget. -/
def generateInstancesGo (template : RecurringTaskTemplate) (skipDates : List Nat)
    (templateExceptions : List RecurrenceException) (endDate : Nat) :
    Nat → Nat → List RecurringTaskInstance
  | _, 0 => []
  | current, fuel + 1 =>
    if current ≤ endDate then
      if skipDates.contains current then
        generateInstancesGo template skipDates templateExceptions endDate
          (incrementDate current template.recurrencePattern) fuel
      else if shouldGenerateForDate current template.recurrencePattern then
        applyModifyException templateExceptions current (createInstance template current) ::
          generateInstancesGo template skipDates templateExceptions endDate
            (incrementDate current template.recurrencePattern) fuel
      else
        generateInstancesGo template skipDates templateExceptions endDate
          (incrementDate current template.recurrencePattern) fuel
    else []

/-- Mirrors `RecurringTaskService.generateInstances`. -/
def generateInstances (template : RecurringTaskTemplate) (startDate endDate : Nat)
    (exceptions : List RecurrenceException) : List RecurringTaskInstance :=
  let templateExceptions := exceptions.filter (fun ex => ex.templateId == template.id)
  let skipDates :=
    (templateExceptions.filter (fun ex => ex.type == ExceptionKind.skip)).map (·.date)
  generateInstancesGo template skipDates templateExceptions endDate
    startDate (endDate + 1 - startDate)

/-- The conditional collect step of the `generatePreview` loop body: push the
date and bump the counter exactly when the pattern matches. -/
def generatePreviewStep (pattern : RecurrencePattern) (current generated : Nat)
    (dates : List Nat) : List Nat × Nat :=
  if shouldGenerateForDate current pattern then (dates ++ [current], generated + 1)
  else (dates, generated)

/-- One loop iteration of `generatePreview`.  The source loop is the one loop
without an a-priori bound (`while generated < count`), so the fuel stays
explicit: `none` means the budget ran out before the loop exited, i.e. the
source would still be running after that many iterations.  The guard compares
the post-increment cursor against 365 days past the start and fires only
while the collection is still empty, exactly as in the source. -/
def generatePreviewGo (pattern : RecurrencePattern) (startDate count : Nat) :
    Nat → Nat → List Nat → Nat → Option (List Nat)
  | current, generated, dates, fuel =>
    if generated < count then
      match fuel with
      | 0 => none
      | fuel + 1 =>
        if (generatePreviewStep pattern current generated dates).1.isEmpty &&
            decide (startDate + 365 < incrementDate current pattern) then
          some (generatePreviewStep pattern current generated dates).1
        else
          generatePreviewGo pattern startDate count (incrementDate current pattern)
            (generatePreviewStep pattern current generated dates).2
            (generatePreviewStep pattern current generated dates).1 fuel
    else some dates

/-- Mirrors `RecurringTaskService.generatePreview` (fuel made explicit). -/
def generatePreview (pattern : RecurrencePattern) (startDate count fuel : Nat) :
    Option (List Nat) :=
  generatePreviewGo pattern startDate count startDate 0 [] fuel

/-! ## Shared JS-semantics helpers -/

/-- `v || d` on a possibly-missing number: JS treats 0 as falsy. -/
def jsOrNat (v : Option Nat) (d : Nat) : Nat :=
  match v with
  | some n => if n = 0 then d else n
  | none => d

/-- `Array.prototype.reduce` without an initial value: throws (`none`) on an
empty array, otherwise folds from the first element. -/
def reduce1 (f : α → α → α) : List α → Option α
  | [] => none
  | x :: xs => some (xs.foldl f x)

/-- First-occurrence deduplication: the key iteration order of a JS `Map`
populated by a forward scan (insertion order). -/
def dedupFirst [DecidableEq α] : List α → List α
  | [] => []
  | x :: xs => x :: (dedupFirst xs).filter (fun y => y != x)

/-- Mirrors `getTasksForDate` of the calendar utils. -/
def getTasksForDate (tasks : List Task) (date : Nat) : List Task :=
  tasks.filter (fun t => t.scheduledDate == date)

def defaultTask : Task where
  id := ""
  title := ""
  category := .work
  priority := .low
  status := .pending
  scheduledDate := 0
  isRecurring := false
  xpReward := 0

/-! ## Workload analyzer (calculateWorkloadAnalysis) -/

inductive PlanningPeriod
  | week | month | quarter
deriving DecidableEq, Repr

inductive WorkloadLevel
  | light | moderate | heavy | overloaded
deriving DecidableEq, Repr

structure DayWorkload where
  date : Nat
  taskCount : Nat
  totalMinutes : Nat
deriving DecidableEq, Repr

structure CategoryStat where
  category : TaskCategory
  taskCount : Nat
  totalMinutes : Nat
  percentage : ℚ
deriving DecidableEq, Repr

structure WorkloadAnalysis where
  period : PlanningPeriod
  startDate : Nat
  endDate : Nat
  totalTasks : Nat
  totalMinutes : Nat
  averageTasksPerDay : ℚ
  averageMinutesPerDay : ℚ
  peakDays : List DayWorkload
  lightDays : List DayWorkload
  categoryDistribution : List CategoryStat
  workloadLevel : WorkloadLevel
  recommendations : List String
deriving DecidableEq, Repr

/-- The per-day breakdown (`dailyWorkload` in the source): one entry per date
of the range, counting the tasks scheduled on that date. -/
def dailyWorkload (tasks : List Task) (startDate endDate : Nat) : List DayWorkload :=
  (getDatesInRange startDate endDate).map (fun date =>
    { date
      taskCount := (getTasksForDate tasks date).length
      totalMinutes := (getTasksForDate tasks date).foldl (fun sum t => sum + jsOrNat t.duration 30) 0 })

/-- The category map of `calculateWorkloadAnalysis`: one entry per category
present among the tasks, in first-occurrence order (JS `Map` insertion
order). -/
def categoryDistributionOf (tasks : List Task) : List CategoryStat :=
  (dedupFirst (tasks.map (·.category))).map (fun c =>
    { category := c
      taskCount := (tasks.filter (fun t => t.category == c)).length
      totalMinutes := (tasks.filter (fun t => t.category == c)).foldl
        (fun sum t => sum + jsOrNat t.duration 30) 0
      percentage := ((tasks.filter (fun t => t.category == c)).length : ℚ) / (tasks.length : ℚ) * 100 })

/-- The workload-level conditional of `calculateWorkloadAnalysis`, checked in
source order (first match wins). -/
def determineWorkloadLevel (averageTasksPerDay averageMinutesPerDay : ℚ) : WorkloadLevel :=
  if averageTasksPerDay ≤ 2 ∧ averageMinutesPerDay ≤ 120 then .light
  else if averageTasksPerDay ≤ 4 ∧ averageMinutesPerDay ≤ 240 then .moderate
  else if averageTasksPerDay ≤ 6 ∧ averageMinutesPerDay ≤ 360 then .heavy
  else .overloaded

/-- Mirrors `generateWorkloadRecommendations`.  The final `reduce` over the
category distribution has no initial value: on an empty distribution the JS
call throws (`none`). -/
def generateWorkloadRecommendations (workloadLevel : WorkloadLevel)
    (peakDays lightDays : List DayWorkload) (categoryDistribution : List CategoryStat) :
    Option (List String) :=
  let recommendations : List String :=
    match workloadLevel with
    | .light =>
      ["You have capacity for additional tasks"] ++
        (if 0 < lightDays.length then
          ["Consider scheduling more important tasks on lighter days"] else [])
    | .moderate =>
      ["Good workload balance", "Monitor peak days to avoid overcommitment"]
    | .heavy =>
      ["High workload detected", "Consider redistributing tasks from peak days"] ++
        (if 0 < peakDays.length then
          ["Peak workload on " ++ toString (peakDays.headD ⟨0, 0, 0⟩).date ++
            " - consider rescheduling some tasks"] else [])
    | .overloaded =>
      ["Workload may be too high", "Strongly consider reducing or rescheduling tasks",
        "Focus on high-priority tasks only"]
  match reduce1 (fun mx cur => if mx.percentage < cur.percentage then cur else mx)
      categoryDistribution with
  | none => none
  | some dominantCategory =>
    some (recommendations ++
      (if 50 < dominantCategory.percentage then
        [categoryName dominantCategory.category ++
          " tasks dominate your schedule - consider diversifying"] else []))

/-- Mirrors `calculateWorkloadAnalysis`.  `none` models the `TypeError` the
source throws inside `generateWorkloadRecommendations` when the category
distribution is empty.  `min 3 ((totalDays + 4) / 5)` is
`Math.min(3, Math.ceil(totalDays * 0.2))`, exact on every value not capped by
the 3 (see the header note on floats); `Array.prototype.slice(-n)` takes the
last `n` elements, and its `n = 0` quirk (whole array) only occurs on an empty
range where both readings are empty. -/
def calculateWorkloadAnalysis (tasks : List Task) (startDate endDate : Nat)
    (period : PlanningPeriod) : Option WorkloadAnalysis :=
  let dateRange := getDatesInRange startDate endDate
  let totalDays := dateRange.length
  let totalTasks := tasks.length
  let totalMinutes := tasks.foldl (fun sum t => sum + jsOrNat t.duration 30) 0
  let averageTasksPerDay : ℚ := (totalTasks : ℚ) / (totalDays : ℚ)
  let averageMinutesPerDay : ℚ := (totalMinutes : ℚ) / (totalDays : ℚ)
  let daily := dailyWorkload tasks startDate endDate
  let sortedByTasks := List.insertionSort (fun a b => b.taskCount ≤ a.taskCount) daily
  -- the source also computes sortedByMinutes but never reads it
  let nPeak := min 3 ((totalDays + 4) / 5)
  let peakDays := sortedByTasks.take nPeak
  let lightDays := (sortedByTasks.drop (sortedByTasks.length - nPeak)).reverse
  let catDist := categoryDistributionOf tasks
  let workloadLevel := determineWorkloadLevel averageTasksPerDay averageMinutesPerDay
  match generateWorkloadRecommendations workloadLevel peakDays lightDays catDist with
  | none => none
  | some recommendations =>
    some { period, startDate, endDate, totalTasks, totalMinutes
           averageTasksPerDay, averageMinutesPerDay, peakDays, lightDays
           categoryDistribution := catDist, workloadLevel, recommendations }

/-! ## Smart scheduler (generateSmartSchedulingSuggestions) -/

/-- Working hours; the source fields are `start` and `end` (`end` is a Lean
keyword, hence `startTime` / `endTime`). -/
structure WorkingHours where
  startTime : Time
  endTime : Time
deriving DecidableEq, Repr

structure SchedulingPreferences where
  workingHours : WorkingHours
  maxTasksPerDay : Option Nat := none
  maxMinutesPerDay : Option Nat := none
deriving DecidableEq, Repr

inductive WorkloadImpact
  | minimal | moderate | significant
deriving DecidableEq, Repr

structure SuggestionAlternative where
  date : Nat
  time : Option Time
  confidence : Nat
  reason : String
deriving DecidableEq, Repr

/-- Confidence is in thousandths: 1000 is the 1.0 the source starts from (see
the header note on floats). -/
structure SmartSchedulingSuggestion where
  suggestedDate : Nat
  suggestedTime : Option Time
  confidence : Nat
  reason : String
  workloadImpact : WorkloadImpact
  alternatives : List SuggestionAlternative
deriving DecidableEq, Repr

def defaultSuggestion : SmartSchedulingSuggestion where
  suggestedDate := 0
  suggestedTime := none
  confidence := 0
  reason := ""
  workloadImpact := .minimal
  alternatives := []

def timeToMinutes (t : Time) : Nat := t.hour * 60 + t.minute

/-- Mirrors `addMinutesToTime`: plain base-60 carry, hours unbounded. -/
def addMinutesToTime (t : Time) (minutes : Nat) : Time :=
  let totalMinutes := t.hour * 60 + t.minute + minutes
  ⟨totalMinutes / 60, totalMinutes % 60⟩

/-- Mirrors `getTimeDifferenceMinutes` (can be negative). -/
def getTimeDifferenceMinutes (t1 t2 : Time) : Int :=
  (timeToMinutes t2 : Int) - (timeToMinutes t1 : Int)

/-- The adjacent-pair gap scan inside `findBestTimeSlot`. -/
def findGapSlot (newTask : TaskDraft) : List Task → Option Time
  | t1 :: t2 :: rest =>
    let currentEnd := addMinutesToTime (t1.scheduledTime.getD ⟨0, 0⟩) (jsOrNat t1.duration 30)
    if (jsOrNat newTask.duration 30 + 15 : Int) ≤
        getTimeDifferenceMinutes currentEnd (t2.scheduledTime.getD ⟨0, 0⟩) then
      some (addMinutesToTime currentEnd 15)
    else findGapSlot newTask (t2 :: rest)
  | _ => none

/-- Mirrors `findBestTimeSlot`.  The source sorts `HH:MM` strings with
`localeCompare`, which on zero-padded times is numeric order; the
`Option.getD ⟨0,0⟩` defaults are unreachable because every list element passed
the `scheduledTime` filter.  The source reads only the hour component of the
working-hours bounds (`split(':')[0]`). -/
def findBestTimeSlot (existingTasks : List Task) (newTask : TaskDraft)
    (workingHours : WorkingHours) : Time :=
  match newTask.scheduledTime with
  | some t => t
  | none =>
    let scheduledTasks :=
      List.insertionSort
        (fun a b => timeToMinutes (a.scheduledTime.getD ⟨0, 0⟩) ≤
          timeToMinutes (b.scheduledTime.getD ⟨0, 0⟩))
        (existingTasks.filter (fun t => t.scheduledTime.isSome))
    let workStart := workingHours.startTime.hour
    let workEnd := workingHours.endTime.hour
    if scheduledTasks.isEmpty then ⟨workStart, 0⟩
    else
      match findGapSlot newTask scheduledTasks with
      | some t => t
      | none =>
        let lastTask := scheduledTasks.getLastD defaultTask
        let afterLastTask := addMinutesToTime (lastTask.scheduledTime.getD ⟨0, 0⟩)
          (jsOrNat lastTask.duration 30 + 15)
        if afterLastTask.hour < workEnd then afterLastTask else ⟨workStart, 0⟩

/-- The confidence computation of the `generateSmartSchedulingSuggestions`
loop body, in thousandths: the exact grid of the float constants 0.3 / 0.6 /
0.2 / 0.7 / 1.2 (every product below is an exact division); the `≥ 80%`
guards are the exact cross multiplications (header note). -/
def candidateConfidence (task : TaskDraft) (existingTasks : List Task)
    (userPreferences : SchedulingPreferences) (date : Nat) : Nat :=
  let dayTasks := getTasksForDate existingTasks date
  let dayTaskCount := dayTasks.length
  let dayMinutes := dayTasks.foldl (fun sum t => sum + jsOrNat t.duration 30) 0
  let maxTasks := jsOrNat userPreferences.maxTasksPerDay 6
  let maxMinutes := jsOrNat userPreferences.maxMinutesPerDay 480
  let confidence : Nat := 1000
  let confidence :=
    if maxTasks ≤ dayTaskCount then confidence * 3 / 10
    else if 8 * maxTasks ≤ 10 * dayTaskCount then confidence * 6 / 10
    else confidence
  let confidence :=
    if maxMinutes ≤ dayMinutes then confidence * 2 / 10
    else if 8 * maxMinutes ≤ 10 * dayMinutes then confidence * 7 / 10
    else confidence
  let sameCategoryTasks := dayTasks.filter (fun t => t.category == task.category)
  if 0 < sameCategoryTasks.length ∧ sameCategoryTasks.length < 3 then
    confidence * 12 / 10
  else confidence

/-- The loop body of `generateSmartSchedulingSuggestions` for one candidate
date: `some` exactly when the candidate survives the `confidence > 0.3`
check (300 thousandths). -/
def suggestionForDate (task : TaskDraft) (existingTasks : List Task)
    (userPreferences : SchedulingPreferences) (date : Nat) :
    Option SmartSchedulingSuggestion :=
  let dayTasks := getTasksForDate existingTasks date
  let dayTaskCount := dayTasks.length
  let dayMinutes := dayTasks.foldl (fun sum t => sum + jsOrNat t.duration 30) 0
  let maxMinutes := jsOrNat userPreferences.maxMinutesPerDay 480
  let sameCategoryTasks := dayTasks.filter (fun t => t.category == task.category)
  let newTotalMinutes := dayMinutes + jsOrNat task.duration 30
  let workloadImpact : WorkloadImpact :=
    if 2 * newTotalMinutes ≤ maxMinutes then .minimal
    else if 10 * newTotalMinutes ≤ 8 * maxMinutes then .moderate
    else .significant
  let reason :=
    if dayTaskCount = 0 then "Free day - ideal for scheduling"
    else if dayTaskCount ≤ 2 then "Light workload day"
    else if 0 < sameCategoryTasks.length then
      "Good fit with existing " ++ categoryName task.category ++ " tasks"
    else "Available slot"
  if 300 < candidateConfidence task existingTasks userPreferences date then
    some { suggestedDate := date
           suggestedTime := some (findBestTimeSlot dayTasks task userPreferences.workingHours)
           confidence := min (candidateConfidence task existingTasks userPreferences date) 1000
           reason, workloadImpact, alternatives := [] }
  else none

structure DateRange where
  startDate : Nat
  endDate : Nat
deriving DecidableEq, Repr

/-- Candidate dates: weekends are excluded for `work` drafts. -/
def availableDatesFor (task : TaskDraft) (dateRange : DateRange) : List Nat :=
  (getDatesInRange dateRange.startDate dateRange.endDate).filter (fun date =>
    if task.category == TaskCategory.work then
      getDay date != 0 && getDay date != 6
    else true)

/-- The `suggestions` array before sorting: the surviving candidates. -/
def suggestionsRaw (task : TaskDraft) (existingTasks : List Task)
    (dateRange : DateRange) (userPreferences : SchedulingPreferences) :
    List SmartSchedulingSuggestion :=
  (availableDatesFor task dateRange).filterMap
    (suggestionForDate task existingTasks userPreferences)

/-- Mirrors `generateSmartSchedulingSuggestions`: sort the survivors by
descending confidence, keep the top 5, and attach to each up to 3
alternatives drawn from the other survivors (filtered by date on the
pre-sort array, exactly as the source does). -/
def generateSmartSchedulingSuggestions (task : TaskDraft) (existingTasks : List Task)
    (dateRange : DateRange) (userPreferences : SchedulingPreferences) :
    List SmartSchedulingSuggestion :=
  let suggestions := suggestionsRaw task existingTasks dateRange userPreferences
  ((List.insertionSort (fun a b => b.confidence ≤ a.confidence) suggestions).take 5).map
    (fun suggestion =>
      { suggestion with
        alternatives :=
          ((suggestions.filter
              (fun s => s.suggestedDate != suggestion.suggestedDate)).take 3).map
            (fun alt => ⟨alt.suggestedDate, alt.suggestedTime, alt.confidence, alt.reason⟩) })

/-! ## Bulk planner (generateBulkTaskPlan) -/

inductive Distribution
  | daily | weekly | custom
deriving DecidableEq, Repr

structure BulkTaskCreation where
  templateId : Option String := none
  tasks : List TaskDraft
  dateRange : DateRange
  distribution : Distribution
  skipWeekends : Option Bool := none
  skipHolidays : Option Bool := none
deriving DecidableEq, Repr

/-- The weekend filter of `generateBulkTaskPlan` (holiday filtering is a TODO
in the source). -/
def bulkFilteredDates (bulkCreation : BulkTaskCreation) : List Nat :=
  (getDatesInRange bulkCreation.dateRange.startDate bulkCreation.dateRange.endDate).filter
    (fun date =>
      if bulkCreation.skipWeekends.getD false then
        !(getDay date == 0 || getDay date == 6)
      else true)

/-- The task record each branch of `generateBulkTaskPlan` pushes: the draft
spread plus a fresh id (`bulk-${Date.now()}-${index}`, wall clock abstracted)
and the computed date. -/
def mkBulkTask (task : TaskDraft) (index : Nat) (scheduledDate : Nat) : Task where
  id := "bulk-" ++ toString index
  title := task.title
  description := task.description
  category := task.category
  priority := task.priority
  status := task.status
  scheduledDate := scheduledDate
  scheduledTime := task.scheduledTime
  duration := task.duration
  isRecurring := task.isRecurring
  recurrencePattern := task.recurrencePattern
  xpReward := task.xpReward
  createdAt := ""
  updatedAt := ""
  completedAt := task.completedAt

/-- Mirrors `generateBulkTaskPlan`.  When the filtered date list is empty but
tasks exist, every branch indexes past the end of the array and
`formatDateString(undefined)` throws: modelled as `none`.  In the `custom`
branch `Math.floor((index / tasks.length) * filteredDates.length)` is the
exact `index * filteredDates.length / tasks.length` (the float rounding of the
source only differs on products within one ulp of an integer, which no claim
depends on).  `weeksAvailable` is `Math.ceil(filteredDates.length / 7)`,
constant across the loop. -/
def generateBulkTaskPlan (bulkCreation : BulkTaskCreation)
    (_existingTasks : List Task) : Option (List Task) :=
  let filteredDates := bulkFilteredDates bulkCreation
  let tasks := bulkCreation.tasks
  if filteredDates.isEmpty && !tasks.isEmpty then none
  else some
    (match bulkCreation.distribution with
     | .daily =>
       tasks.mapIdx (fun index task =>
         mkBulkTask task index (filteredDates.getD (index % filteredDates.length) 0))
     | .weekly =>
       let weeksAvailable := (filteredDates.length + 6) / 7
       (tasks.foldl (fun acc task =>
         let dateIndex := (acc.2 * 7) % filteredDates.length
         (acc.1 ++ [mkBulkTask task acc.1.length (filteredDates.getD dateIndex 0)],
          (acc.2 + 1) % weeksAvailable)) (([] : List Task), 0)).1
     | .custom =>
       tasks.mapIdx (fun index task =>
         mkBulkTask task index
           (filteredDates.getD (index * filteredDates.length / tasks.length) 0)))

/-! ## Conflict validator (validatePlanningConflicts) -/

inductive Severity
  | low | medium | high
deriving DecidableEq, Repr

structure Conflict where
  date : Nat
  reason : String
  severity : Severity
deriving DecidableEq, Repr

/-- Mirrors `hasTimeConflict`: half-open interval overlap of the two tasks,
`false` when either has no scheduled time. -/
def hasTimeConflict (task1 task2 : Task) : Bool :=
  match task1.scheduledTime, task2.scheduledTime with
  | some time1, some time2 =>
    let start1 := timeToMinutes time1
    let end1 := start1 + jsOrNat task1.duration 30
    let start2 := timeToMinutes time2
    let end2 := start2 + jsOrNat task2.duration 30
    decide (start1 < end2) && decide (start2 < end1)
  | _, _ => false

/-- The message of a pairwise time conflict, naming both task titles. -/
def timeConflictReason (task1 task2 : Task) : String :=
  "Time conflict between \"" ++ task1.title ++ "\" and \"" ++ task2.title ++ "\""

/-- The nested `i < j` pair loop over the time-bearing tasks of one date. -/
def pairTimeConflicts (date : Nat) : List Task → List Conflict
  | [] => []
  | task1 :: rest =>
    (rest.filter (fun task2 => hasTimeConflict task1 task2)).map (fun task2 =>
      ⟨date, timeConflictReason task1 task2, .high⟩) ++
      pairTimeConflicts date rest

/-- The per-date body of `validatePlanningConflicts`.  `Math.round(x)` is
half-up rounding, so `Math.round(totalMinutes / 60)` is
`(totalMinutes + 30) / 60` on `Nat`. -/
def dayConflicts (date : Nat) (dayTasks : List Task) : List Conflict :=
  let totalMinutes := dayTasks.foldl (fun sum t => sum + jsOrNat t.duration 30) 0
  let taskCount := dayTasks.length
  (if 480 < totalMinutes then
    [⟨date, "Overloaded day: " ++ toString ((totalMinutes + 30) / 60) ++ " hours of tasks",
      .high⟩]
   else if 360 < totalMinutes then
    [⟨date, "Heavy workload: " ++ toString ((totalMinutes + 30) / 60) ++ " hours of tasks",
      .medium⟩]
   else []) ++
  (if 8 < taskCount then
    [⟨date, "Too many tasks: " ++ toString taskCount ++ " tasks scheduled", .high⟩]
   else if 6 < taskCount then
    [⟨date, "Many tasks: " ++ toString taskCount ++ " tasks scheduled", .medium⟩]
   else []) ++
  pairTimeConflicts date (dayTasks.filter (fun t => t.scheduledTime.isSome))

/-- Mirrors `validatePlanningConflicts`: merge existing and planned tasks,
group by date (first-occurrence order, as a JS `Map` iterates), and emit the
conflicts of every date. -/
def validatePlanningConflicts (plannedTasks existingTasks : List Task) : List Conflict :=
  let allTasks := existingTasks ++ plannedTasks
  (dedupFirst (allTasks.map (·.scheduledDate))).flatMap (fun date =>
    dayConflicts date (allTasks.filter (fun t => t.scheduledDate == date)))

/-! ## Definitions used by the verification statements -/

/-- The weekday set of a pattern: the `daysOfWeek` list when weekly options
are present, empty otherwise. -/
def patternWeekdays (p : RecurrencePattern) : List Nat :=
  match p.weeklyOptions with
  | none => []
  | some w => w.daysOfWeek

/-- Severity tier of a workload level: light < moderate < heavy < overloaded. -/
def workloadTier : WorkloadLevel → Nat
  | .light => 0
  | .moderate => 1
  | .heavy => 2
  | .overloaded => 3

def defaultAnalysis : WorkloadAnalysis where
  period := .week
  startDate := 0
  endDate := 0
  totalTasks := 0
  totalMinutes := 0
  averageTasksPerDay := 0
  averageMinutesPerDay := 0
  peakDays := []
  lightDays := []
  categoryDistribution := []
  workloadLevel := .light
  recommendations := []

/-- A weekly Mon/Wed/Fri template; its interval 2 is accepted but, as the spec
documents, never applied. -/
def mwfTemplate : RecurringTaskTemplate where
  id := "t-mwf"
  title := "T"
  category := .personal
  priority := .medium
  xpReward := 5
  recurrencePattern := { type := .weekly, interval := 2, weeklyOptions := some ⟨[1, 3, 5]⟩ }

/-- A weekly template whose weekday list is empty. -/
def emptyWeeklyTemplate : RecurringTaskTemplate where
  id := "t-empty"
  title := "E"
  category := .personal
  priority := .medium
  xpReward := 5
  recurrencePattern := { type := .weekly, interval := 1, weeklyOptions := some ⟨[]⟩ }

/-- An everyday weekly template (all seven weekdays listed). -/
def everydayTemplate : RecurringTaskTemplate where
  id := "t-every"
  title := "D"
  category := .personal
  priority := .medium
  xpReward := 5
  recurrencePattern :=
    { type := .weekly, interval := 1, weeklyOptions := some ⟨[0, 1, 2, 3, 4, 5, 6]⟩ }

/-- A skip exception on day 0 together with a modify exception on day 1 whose
patch moves `scheduledDate` back onto the skipped day 0. -/
def skipAndMoveExceptions : List RecurrenceException :=
  [{ templateId := "t-every", date := 0, type := .skip },
   { templateId := "t-every", date := 1, type := .modify,
     modifiedTask := some { scheduledDate := some 0 } }]

/-- A weekly pattern with an empty weekday list: no date ever matches it. -/
def neverPattern : RecurrencePattern :=
  { type := .weekly, interval := 1, weeklyOptions := some ⟨[]⟩ }

/-- A task scheduled on day 99, outside the range 0..6. -/
def strayTask : Task := { defaultTask with id := "stray", scheduledDate := 99 }

/-- A task scheduled on day 3, inside the range 0..6. -/
def inRangeTask : Task := { defaultTask with id := "in", scheduledDate := 3 }

/-- One 30-minute task on day 0. -/
def oneTask30 : List Task := [{ defaultTask with id := "a", duration := some 30 }]

/-- Two 15-minute tasks on day 0: same total minutes as `oneTask30`. -/
def twoTasks15 : List Task :=
  [{ defaultTask with id := "b1", duration := some 15 },
   { defaultTask with id := "b2", duration := some 15 }]

/-- Same-day tasks at 09:00 for 45 minutes and 09:30 for 30 minutes. -/
def overlapTaskA : Task :=
  { defaultTask with id := "a", title := "A", scheduledTime := some ⟨9, 0⟩, duration := some 45 }

def overlapTaskB : Task :=
  { defaultTask with id := "b", title := "B", scheduledTime := some ⟨9, 30⟩, duration := some 30 }

def sampleDraft : TaskDraft where
  title := "Draft"
  category := .personal
  priority := .low
  status := .pending
  scheduledDate := 0
  isRecurring := false
  xpReward := 1

def samplePreferences : SchedulingPreferences where
  workingHours := ⟨⟨9, 0⟩, ⟨17, 0⟩⟩

/-- Ten drafts over the five dates 0..4 with the daily distribution. -/
def tenTaskBulk : BulkTaskCreation where
  tasks := List.replicate 10 sampleDraft
  dateRange := ⟨0, 4⟩
  distribution := .daily

/-- Seven untimed tasks on day 5: more than six tasks on one date. -/
def sevenTasksOneDay : List Task :=
  List.replicate 7 { defaultTask with id := "m", scheduledDate := 5 }

/-! ## Recurrence engine: supporting lemmas -/

theorem incrementDate_eq (date : Nat) (p : RecurrencePattern) :
    incrementDate date p = date + 1 := by
  unfold incrementDate; cases p.type <;> rfl

theorem applyModifyException_instanceDate (tex : List RecurrenceException)
    (current : Nat) (inst : RecurringTaskInstance) :
    (applyModifyException tex current inst).instanceDate = inst.instanceDate := by
  unfold applyModifyException
  cases tex.find? (fun ex => ex.type == ExceptionKind.modify && ex.date == current) with
  | none => rfl
  | some ex =>
    obtain ⟨exid, tid, d, ty, mt, ca⟩ := ex
    cases mt with
    | none => rfl
    | some patch => rfl

theorem mem_generateInstancesGo_not_skipped (template : RecurringTaskTemplate)
    (skipDates : List Nat) (tex : List RecurrenceException) (endDate : Nat) :
    ∀ (fuel current : Nat) (inst : RecurringTaskInstance),
      inst ∈ generateInstancesGo template skipDates tex endDate current fuel →
      inst.instanceDate ∉ skipDates := by
  intro fuel
  induction fuel with
  | zero => intro current inst h; simp [generateInstancesGo] at h
  | succ n ih =>
    intro current inst h
    simp only [generateInstancesGo] at h
    split at h
    · split at h
      · exact ih _ _ h
      · next hskip =>
        split at h
        · rcases List.mem_cons.mp h with heq | hmem
          · subst heq
            rw [applyModifyException_instanceDate]
            intro hm
            exact hskip (List.elem_iff.mpr hm)
          · exact ih _ _ hmem
        · exact ih _ _ h
    · simp at h

theorem generateInstancesGo_eq_nil (template : RecurringTaskTemplate)
    (skipDates : List Nat) (tex : List RecurrenceException) (endDate : Nat)
    (hnever : ∀ d, shouldGenerateForDate d template.recurrencePattern = false) :
    ∀ (fuel current : Nat),
      generateInstancesGo template skipDates tex endDate current fuel = [] := by
  intro fuel
  induction fuel with
  | zero => intro current; rfl
  | succ n ih =>
    intro current
    simp only [generateInstancesGo, hnever, Bool.false_eq_true, if_false]
    split
    · split
      · exact ih _
      · exact ih _
    · rfl

/-! ## Claim C1 -/

/-- Claim C1 counterexample: for the everyday template, a skip exception on
day 0 and a modify exception on day 1 whose patch sets `scheduledDate := 0`,
`generateInstances` over days 0..1 returns an instance whose `scheduledDate`
is the skip-listed day 0 — so an instance with a skipped date does appear in
the output. -/
theorem generateInstances_skipped_scheduledDate_counterexample :
    (∃ ex ∈ skipAndMoveExceptions,
        ex.templateId = everydayTemplate.id ∧ ex.type = ExceptionKind.skip ∧ ex.date = 0) ∧
    ∃ inst ∈ generateInstances everydayTemplate 0 1 skipAndMoveExceptions,
      inst.scheduledDate = 0 := by
  constructor
  · exact ⟨skipAndMoveExceptions.head (by decide), by decide, by decide, by decide, by decide⟩
  · exact ⟨(generateInstances everydayTemplate 0 1 skipAndMoveExceptions).head (by decide),
      by decide, by decide⟩

/-- Claim C1 (amended): for every template, range and exception list, no
instance whose `instanceDate` carries a skip exception of that template is
ever generated; the `scheduledDate` of an instance, however, can be moved
onto a skipped date by a modify exception of a different date, as the
counterexample shows. -/
theorem generateInstances_instanceDate_not_skipped
    (template : RecurringTaskTemplate) (startDate endDate : Nat)
    (exceptions : List RecurrenceException) (inst : RecurringTaskInstance)
    (ex : RecurrenceException)
    (hmem : inst ∈ generateInstances template startDate endDate exceptions)
    (hex : ex ∈ exceptions) (hid : ex.templateId = template.id)
    (hskip : ex.type = ExceptionKind.skip) :
    inst.instanceDate ≠ ex.date := by
  intro hdate
  unfold generateInstances at hmem
  have hnotmem := mem_generateInstancesGo_not_skipped template _ _ endDate _ _ _ hmem
  rw [hdate] at hnotmem
  have hmemdate : ex.date ∈
      ((exceptions.filter (fun e => e.templateId == template.id)).filter
        (fun e => e.type == ExceptionKind.skip)).map (·.date) := by
    refine List.mem_map.mpr ⟨ex, ?_, rfl⟩
    refine List.mem_filter.mpr ⟨List.mem_filter.mpr ⟨hex, ?_⟩, ?_⟩ <;>
      simp [hid, hskip]
  exact hnotmem hmemdate

/-- Witness for the amended claim C1 at the counterexample inputs: the sole
generated instance has `instanceDate = 1`, not the skipped day 0. -/
theorem generateInstances_instanceDate_not_skipped_witness :
    ((generateInstances everydayTemplate 0 1 skipAndMoveExceptions).head (by decide)).instanceDate ≠ 0 :=
  generateInstances_instanceDate_not_skipped everydayTemplate 0 1 skipAndMoveExceptions
    _ (skipAndMoveExceptions.head (by decide)) (by decide) (by decide) (by decide) (by decide)

/-! ## Claim C2 -/

/-- Claim C2: weekly matching is exactly weekday-set membership (so the
interval plays no role), a weekly pattern with no weekdays generates no
instances, and the Mon/Wed/Fri template over the week 0..6 starting on a
Sunday yields exactly the three instances dated 1, 3 and 5 (Mon, Wed, Fri). -/
theorem shouldGenerateWeekly_eq_contains (date : Nat) (p : RecurrencePattern) :
    shouldGenerateWeekly date p = (patternWeekdays p).contains (getDay date) := by
  unfold shouldGenerateWeekly patternWeekdays
  cases p.weeklyOptions with
  | none => rfl
  | some w =>
    obtain ⟨days⟩ := w
    cases days with
    | nil => rfl
    | cons x xs => simp

theorem weekly_matches_weekday_set :
    (∀ (date : Nat) (p : RecurrencePattern),
        shouldGenerateWeekly date p = (patternWeekdays p).contains (getDay date)) ∧
    (∀ (template : RecurringTaskTemplate) (startDate endDate : Nat)
        (exceptions : List RecurrenceException),
        template.recurrencePattern.type = RecurrenceFrequency.weekly →
        patternWeekdays template.recurrencePattern = [] →
        generateInstances template startDate endDate exceptions = []) ∧
    (generateInstances mwfTemplate 0 6 []).map (·.instanceDate) = [1, 3, 5] := by
  refine ⟨shouldGenerateWeekly_eq_contains, ?_, by decide⟩
  intro template s e exs htype hempty
  unfold generateInstances
  apply generateInstancesGo_eq_nil
  intro d
  unfold shouldGenerateForDate
  rw [htype, shouldGenerateWeekly_eq_contains, hempty]
  rfl

/-- Witness for claim C2: the empty-weekday weekly template generates nothing
over days 0..5. -/
theorem weekly_matches_weekday_set_witness :
    generateInstances emptyWeeklyTemplate 0 5 [] = [] :=
  weekly_matches_weekday_set.2.1 emptyWeeklyTemplate 0 5 [] rfl rfl

/-! ## Claim C4 -/

theorem generatePreviewStep_len (pattern : RecurrencePattern)
    (current generated : Nat) (dates : List Nat) (hlen : dates.length = generated) :
    (generatePreviewStep pattern current generated dates).1.length =
      (generatePreviewStep pattern current generated dates).2 := by
  unfold generatePreviewStep
  split <;> simp [hlen]

theorem generatePreviewStep_two_le (pattern : RecurrencePattern)
    (current generated : Nat) (dates : List Nat) :
    (generatePreviewStep pattern current generated dates).2 ≤ generated + 1 := by
  unfold generatePreviewStep
  split <;> simp

theorem generatePreviewGo_length_le (pattern : RecurrencePattern) (startDate count : Nat) :
    ∀ (fuel current generated : Nat) (dates res : List Nat),
      dates.length = generated → generated ≤ count →
      generatePreviewGo pattern startDate count current generated dates fuel = some res →
      res.length ≤ count := by
  intro fuel
  induction fuel with
  | zero =>
    intro current generated dates res hlen hle h
    rw [generatePreviewGo] at h
    split at h
    · exact absurd h (by simp)
    · injection h with h
      subst h
      omega
  | succ n ih =>
    intro current generated dates res hlen hle h
    rw [generatePreviewGo] at h
    split at h
    · next hgen =>
      split at h
      · next hguard =>
        injection h with h
        subst h
        simp only [Bool.and_eq_true] at hguard
        rw [List.isEmpty_iff.mp hguard.1]
        simp
      · refine ih _ _ _ _ (generatePreviewStep_len pattern current generated dates hlen) ?_ h
        have := generatePreviewStep_two_le pattern current generated dates
        omega
    · injection h with h
      subst h
      omega

theorem generatePreviewGo_never (pattern : RecurrencePattern) (startDate count : Nat)
    (hnever : ∀ d, shouldGenerateForDate d pattern = false) :
    ∀ (fuel i : Nat), i ≤ 365 → 366 - i ≤ fuel →
      generatePreviewGo pattern startDate count (startDate + i) 0 [] fuel = some [] := by
  intro fuel
  induction fuel with
  | zero => intro i hi hf; omega
  | succ n ih =>
    intro i hi hf
    have hstep : generatePreviewStep pattern (startDate + i) 0 [] = ([], 0) := by
      unfold generatePreviewStep
      rw [hnever]
      rfl
    rw [generatePreviewGo]
    split
    · rw [hstep, incrementDate_eq]
      by_cases hlast : i = 365
      · subst hlast
        rw [if_pos (by simp only [List.isEmpty_nil, Bool.true_and, decide_eq_true_eq]; omega)]
      · rw [if_neg (by simp only [List.isEmpty_nil, Bool.true_and, decide_eq_true_eq]; omega)]
        have h := ih (i + 1) (by omega) (by omega)
        rwa [show startDate + i + 1 = startDate + (i + 1) by omega]
    · rfl

/-- Claim C4: every terminating run of `generatePreview` returns at most
`count` dates, and when no date matches the pattern the loop stops by the
365-day guard: after 366 iterations (the last tested date being 365 days past
the start) it returns the empty collection. -/
theorem generatePreview_bounded (pattern : RecurrencePattern) (startDate count : Nat) :
    (∀ (fuel : Nat) (res : List Nat),
        generatePreview pattern startDate count fuel = some res → res.length ≤ count) ∧
    ((∀ d, shouldGenerateForDate d pattern = false) →
      ∀ fuel, 366 ≤ fuel → generatePreview pattern startDate count fuel = some []) := by
  constructor
  · intro fuel res h
    exact generatePreviewGo_length_le pattern startDate count fuel startDate 0 [] res rfl
      (Nat.zero_le _) h
  · intro hnever fuel hfuel
    have h := generatePreviewGo_never pattern startDate count hnever fuel 0 (by omega) (by omega)
    unfold generatePreview
    simpa using h

/-- Witness for claim C4: the never-matching weekly pattern terminates with an
empty preview within the 366-iteration budget. -/
theorem generatePreview_bounded_witness :
    generatePreview neverPattern 0 5 366 = some [] :=
  (generatePreview_bounded neverPattern 0 5).2 (fun _ => rfl) 366 (by decide)

/-! ## Claim C3 -/

/-- Claim C3 (code bug): on an empty task list the category distribution is
empty, and the dominant-category `reduce` inside
`generateWorkloadRecommendations` runs on an empty array without an initial
value, which throws a `TypeError` in JS.  `calculateWorkloadAnalysis` with no
tasks therefore crashes for every date range (`none` in this model), instead
of returning the light, capacity-available analysis the spec requires. -/
theorem calculateWorkloadAnalysis_empty_tasks_throws (startDate endDate : Nat)
    (period : PlanningPeriod) :
    calculateWorkloadAnalysis [] startDate endDate period = none := rfl

/-! ## Claim C10 -/

theorem pairTimeConflicts_severity (date : Nat) :
    ∀ (l : List Task) (c : Conflict), c ∈ pairTimeConflicts date l →
      c.severity = Severity.high := by
  intro l
  induction l with
  | nil => intro c h; simp [pairTimeConflicts] at h
  | cons t rest ih =>
    intro c h
    simp only [pairTimeConflicts] at h
    rcases List.mem_append.mp h with h1 | h2
    · obtain ⟨t2, _, rfl⟩ := List.mem_map.mp h1
      rfl
    · exact ih _ h2

theorem dayConflicts_severity (date : Nat) (dayTasks : List Task) (c : Conflict)
    (h : c ∈ dayConflicts date dayTasks) :
    c.severity = Severity.medium ∨ c.severity = Severity.high := by
  unfold dayConflicts at h
  rcases List.mem_append.mp h with h12 | h3
  · rcases List.mem_append.mp h12 with h1 | h2
    · split at h1
      · rw [List.mem_singleton] at h1; subst h1; right; rfl
      · split at h1
        · rw [List.mem_singleton] at h1; subst h1; left; rfl
        · simp at h1
    · split at h2
      · rw [List.mem_singleton] at h2; subst h2; right; rfl
      · split at h2
        · rw [List.mem_singleton] at h2; subst h2; left; rfl
        · simp at h2
  · exact Or.inr (pairTimeConflicts_severity date _ c h3)

/-- Claim C10: every conflict record emitted by `validatePlanningConflicts`
has severity medium or high; the low severity admitted by the declared result
type is never produced. -/
theorem validatePlanningConflicts_severity
    (plannedTasks existingTasks : List Task) (c : Conflict)
    (h : c ∈ validatePlanningConflicts plannedTasks existingTasks) :
    c.severity = Severity.medium ∨ c.severity = Severity.high := by
  unfold validatePlanningConflicts at h
  obtain ⟨date, _, hc⟩ := List.mem_flatMap.mp h
  exact dayConflicts_severity date _ c hc

/-- Witness for claim C10: seven tasks on one day produce a conflict, and its
severity is medium or high. -/
theorem validatePlanningConflicts_severity_witness :
    ((validatePlanningConflicts sevenTasksOneDay []).headD ⟨0, "", .low⟩).severity =
        Severity.medium ∨
      ((validatePlanningConflicts sevenTasksOneDay []).headD ⟨0, "", .low⟩).severity =
        Severity.high :=
  validatePlanningConflicts_severity sevenTasksOneDay [] _ (by decide)

/-! ## Claim C7 -/

theorem mem_dedupFirst [DecidableEq α] : ∀ (l : List α) (x : α),
    x ∈ dedupFirst l ↔ x ∈ l := by
  intro l
  induction l with
  | nil => intro x; simp [dedupFirst]
  | cons a as ih =>
    intro x
    simp only [dedupFirst, List.mem_cons, List.mem_filter]
    constructor
    · rintro (rfl | ⟨hx, -⟩)
      · exact Or.inl rfl
      · exact Or.inr ((ih x).mp hx)
    · rintro (rfl | hx)
      · exact Or.inl rfl
      · by_cases hxa : x = a
        · exact Or.inl hxa
        · exact Or.inr ⟨(ih x).mpr hx, by simp [hxa]⟩

theorem hasTimeConflict_isSome (task1 task2 : Task)
    (h : hasTimeConflict task1 task2 = true) :
    task1.scheduledTime.isSome = true ∧ task2.scheduledTime.isSome = true := by
  unfold hasTimeConflict at h
  cases h1 : task1.scheduledTime <;> cases h2 : task2.scheduledTime <;>
    rw [h1, h2] at h <;> simp_all

theorem hasTimeConflict_symm (task1 task2 : Task)
    (h : hasTimeConflict task1 task2 = true) :
    hasTimeConflict task2 task1 = true := by
  unfold hasTimeConflict at *
  cases h1 : task1.scheduledTime <;> cases h2 : task2.scheduledTime <;>
    rw [h1, h2] at h <;> simp_all

theorem mem_pairTimeConflicts (date : Nat) :
    ∀ (l : List Task) (t1 t2 : Task), t1 ∈ l → t2 ∈ l → t1 ≠ t2 →
      hasTimeConflict t1 t2 = true →
      ∃ c ∈ pairTimeConflicts date l,
        c.severity = Severity.high ∧ c.date = date ∧
        (c.reason = timeConflictReason t1 t2 ∨ c.reason = timeConflictReason t2 t1) := by
  intro l
  induction l with
  | nil => intro t1 t2 h1; simp at h1
  | cons t rest ih =>
    intro t1 t2 h1 h2 hne hconf
    rcases List.mem_cons.mp h1 with rfl | h1r
    · have h2r : t2 ∈ rest := by
        rcases List.mem_cons.mp h2 with rfl | h
        · exact absurd rfl hne
        · exact h
      refine ⟨⟨date, timeConflictReason t1 t2, .high⟩, ?_, rfl, rfl, Or.inl rfl⟩
      simp only [pairTimeConflicts]
      exact List.mem_append.mpr (Or.inl
        (List.mem_map.mpr ⟨t2, List.mem_filter.mpr ⟨h2r, hconf⟩, rfl⟩))
    · rcases List.mem_cons.mp h2 with rfl | h2r
      · refine ⟨⟨date, timeConflictReason t2 t1, .high⟩, ?_, rfl, rfl, Or.inr rfl⟩
        simp only [pairTimeConflicts]
        exact List.mem_append.mpr (Or.inl
          (List.mem_map.mpr ⟨t1, List.mem_filter.mpr ⟨h1r, hasTimeConflict_symm _ _ hconf⟩, rfl⟩))
      · obtain ⟨c, hc, hprops⟩ := ih t1 t2 h1r h2r hne hconf
        refine ⟨c, ?_, hprops⟩
        simp only [pairTimeConflicts]
        exact List.mem_append.mpr (Or.inr hc)

/-- Claim C7: every pair of distinct same-day time-bearing tasks whose
half-open intervals overlap yields a high-severity conflict naming both
titles, and the concrete 09:00/45min versus 09:30/30min pair yields exactly
one conflict: the high-severity time conflict naming "A" and "B". -/
theorem validatePlanningConflicts_overlap :
    (∀ (plannedTasks existingTasks : List Task) (t1 t2 : Task),
        t1 ∈ existingTasks ++ plannedTasks → t2 ∈ existingTasks ++ plannedTasks →
        t1 ≠ t2 → t1.scheduledDate = t2.scheduledDate →
        hasTimeConflict t1 t2 = true →
        ∃ c ∈ validatePlanningConflicts plannedTasks existingTasks,
          c.severity = Severity.high ∧ c.date = t1.scheduledDate ∧
          (c.reason = timeConflictReason t1 t2 ∨ c.reason = timeConflictReason t2 t1)) ∧
    validatePlanningConflicts [overlapTaskA, overlapTaskB] [] =
      [⟨0, timeConflictReason overlapTaskA overlapTaskB, Severity.high⟩] := by
  constructor
  · intro planned existing t1 t2 ht1 ht2 hne hdate hconf
    obtain ⟨hs1, hs2⟩ := hasTimeConflict_isSome t1 t2 hconf
    have hf1 : t1 ∈ ((existing ++ planned).filter
        (fun t => t.scheduledDate == t1.scheduledDate)).filter
          (fun t => t.scheduledTime.isSome) :=
      List.mem_filter.mpr ⟨List.mem_filter.mpr ⟨ht1, by simp⟩, hs1⟩
    have hf2 : t2 ∈ ((existing ++ planned).filter
        (fun t => t.scheduledDate == t1.scheduledDate)).filter
          (fun t => t.scheduledTime.isSome) :=
      List.mem_filter.mpr ⟨List.mem_filter.mpr ⟨ht2, by simp [hdate.symm]⟩, hs2⟩
    obtain ⟨c, hc, hprops⟩ :=
      mem_pairTimeConflicts t1.scheduledDate _ t1 t2 hf1 hf2 hne hconf
    refine ⟨c, ?_, hprops⟩
    unfold validatePlanningConflicts
    refine List.mem_flatMap.mpr ⟨t1.scheduledDate, ?_, ?_⟩
    · exact (mem_dedupFirst _ _).mpr (List.mem_map.mpr ⟨t1, ht1, rfl⟩)
    · simp only [dayConflicts]
      exact List.mem_append.mpr (Or.inr hc)
  · decide

/-- Witness for claim C7 at the 09:00/45min and 09:30/30min pair. -/
theorem validatePlanningConflicts_overlap_witness :
    ∃ c ∈ validatePlanningConflicts [overlapTaskA, overlapTaskB] [],
      c.severity = Severity.high ∧ c.date = overlapTaskA.scheduledDate ∧
      (c.reason = timeConflictReason overlapTaskA overlapTaskB ∨
        c.reason = timeConflictReason overlapTaskB overlapTaskA) :=
  validatePlanningConflicts_overlap.1 [overlapTaskA, overlapTaskB] []
    overlapTaskA overlapTaskB (by decide) (by decide) (by decide) (by decide) (by decide)

/-! ## Claim C8 -/

/-- Claim C8: under the daily distribution with a non-empty filtered date
list, the i-th input task is scheduled on `filteredDates[i mod len]`. -/
theorem generateBulkTaskPlan_daily_mod
    (bulkCreation : BulkTaskCreation) (existingTasks : List Task) (i : Nat)
    (hdist : bulkCreation.distribution = Distribution.daily)
    (hne : bulkFilteredDates bulkCreation ≠ [])
    (hi : i < bulkCreation.tasks.length) :
    (((generateBulkTaskPlan bulkCreation existingTasks).getD []).getD i
        defaultTask).scheduledDate =
      (bulkFilteredDates bulkCreation).getD
        (i % (bulkFilteredDates bulkCreation).length) 0 := by
  simp only [generateBulkTaskPlan]
  rw [hdist]
  rw [if_neg (by
    simp only [Bool.and_eq_true, List.isEmpty_iff]
    rintro ⟨h1, -⟩
    exact hne h1)]
  simp only [Option.getD_some]
  rw [List.getD_eq_getElem?_getD,
    List.getElem?_eq_getElem (by rw [List.length_mapIdx]; exact hi),
    List.getElem_mapIdx]
  rfl

/-- Witness for claim C8: with ten drafts over the five dates 0..4, tasks 0
and 5 both land on `filteredDates[0]`, day 0. -/
theorem generateBulkTaskPlan_daily_mod_witness :
    (((generateBulkTaskPlan tenTaskBulk []).getD []).getD 0 defaultTask).scheduledDate = 0 ∧
    (((generateBulkTaskPlan tenTaskBulk []).getD []).getD 5 defaultTask).scheduledDate = 0 :=
  ⟨(generateBulkTaskPlan_daily_mod tenTaskBulk [] 0 rfl (by decide) (by decide)).trans
      (by decide),
   (generateBulkTaskPlan_daily_mod tenTaskBulk [] 5 rfl (by decide) (by decide)).trans
      (by decide)⟩

/-! ## Claim C5 -/

theorem filter_cons_contains_length (d : Nat) (ds : List Nat) (hd : d ∉ ds) :
    ∀ tasks : List Task,
      (tasks.filter (fun t => (d :: ds).contains t.scheduledDate)).length =
        (tasks.filter (fun t => t.scheduledDate == d)).length +
          (tasks.filter (fun t => ds.contains t.scheduledDate)).length := by
  intro tasks
  induction tasks with
  | nil => rfl
  | cons t ts ih =>
    simp only [List.filter_cons] at *
    by_cases h1 : t.scheduledDate = d
    · have h2 : t.scheduledDate ∉ ds := by rw [h1]; exact hd
      simp [h1, h2, hd] at ih ⊢
      omega
    · by_cases h2 : t.scheduledDate ∈ ds
      · simp [h1, h2, hd] at ih ⊢
        omega
      · simp [h1, h2, hd] at ih ⊢
        omega

theorem sum_daily_counts (tasks : List Task) :
    ∀ dates : List Nat, dates.Nodup →
      ((dates.map (fun d => (tasks.filter (fun t => t.scheduledDate == d)).length)).sum =
        (tasks.filter (fun t => dates.contains t.scheduledDate)).length) := by
  intro dates
  induction dates with
  | nil => intro _; simp
  | cons d ds ih =>
    intro hnd
    rw [List.map_cons, List.sum_cons, ih (List.nodup_cons.mp hnd).2,
      filter_cons_contains_length d ds (List.nodup_cons.mp hnd).1]

theorem dailyWorkload_sum_eq (tasks : List Task) (startDate endDate : Nat) :
    ((dailyWorkload tasks startDate endDate).map (·.taskCount)).sum =
      (tasks.filter (fun t =>
        (getDatesInRange startDate endDate).contains t.scheduledDate)).length := by
  unfold dailyWorkload getTasksForDate
  rw [List.map_map]
  exact sum_daily_counts tasks (getDatesInRange startDate endDate)
    (List.nodup_range' _ _)

/-- Claim C5 counterexample: with one task scheduled on day 99 and the range
0..6, the per-day breakdown sums to 0 while totalTasks is 1 — the sum of
taskCount over the breakdown does not equal the count of the input list. -/
theorem dailyWorkload_sum_counterexample :
    ¬(((dailyWorkload [strayTask] 0 6).map (·.taskCount)).sum =
        ([strayTask] : List Task).length) := by decide

/-- Claim C5 (amended): the sum of taskCount over the per-day breakdown
equals the number of input tasks whose scheduledDate lies on a date of the
range; when every input task is scheduled inside the range this is
totalTasks, the count of the input list. -/
theorem dailyWorkload_sum_taskCount (tasks : List Task) (startDate endDate : Nat) :
    ((dailyWorkload tasks startDate endDate).map (·.taskCount)).sum =
      (tasks.filter (fun t =>
        (getDatesInRange startDate endDate).contains t.scheduledDate)).length ∧
    ((∀ t ∈ tasks, t.scheduledDate ∈ getDatesInRange startDate endDate) →
      ((dailyWorkload tasks startDate endDate).map (·.taskCount)).sum = tasks.length) := by
  have hmain := dailyWorkload_sum_eq tasks startDate endDate
  refine ⟨hmain, fun hall => ?_⟩
  rw [hmain, List.filter_eq_self.mpr (fun t ht => List.elem_iff.mpr (hall t ht))]

/-- Witness for the amended claim C5: one task scheduled on day 3 inside the
range 0..6 makes the breakdown sum equal totalTasks = 1. -/
theorem dailyWorkload_sum_taskCount_witness :
    ((dailyWorkload [inRangeTask] 0 6).map (·.taskCount)).sum =
      ([inRangeTask] : List Task).length :=
  (dailyWorkload_sum_taskCount [inRangeTask] 0 6).2 (by decide)

/-! ## Claim C6 -/

theorem calculateWorkloadAnalysis_level (tasks : List Task) (startDate endDate : Nat)
    (period : PlanningPeriod) (a : WorkloadAnalysis)
    (h : calculateWorkloadAnalysis tasks startDate endDate period = some a) :
    a.workloadLevel = determineWorkloadLevel a.averageTasksPerDay a.averageMinutesPerDay := by
  simp only [calculateWorkloadAnalysis] at h
  split at h
  · exact absurd h (by simp)
  · injection h with h
    subst h
    rfl

theorem determineWorkloadLevel_mono (t1 t2 m : ℚ) (ht : t1 ≤ t2) :
    workloadTier (determineWorkloadLevel t1 m) ≤
      workloadTier (determineWorkloadLevel t2 m) := by
  have hc1 : (t2 ≤ 2 ∧ m ≤ 120) → (t1 ≤ 2 ∧ m ≤ 120) := fun h => ⟨le_trans ht h.1, h.2⟩
  have hc2 : (t2 ≤ 4 ∧ m ≤ 240) → (t1 ≤ 4 ∧ m ≤ 240) := fun h => ⟨le_trans ht h.1, h.2⟩
  have hc3 : (t2 ≤ 6 ∧ m ≤ 360) → (t1 ≤ 6 ∧ m ≤ 360) := fun h => ⟨le_trans ht h.1, h.2⟩
  unfold determineWorkloadLevel
  split_ifs <;> simp only [workloadTier] <;> first | omega | itauto

/-- Claim C6: for any two inputs whose analyses succeed, with equal
averageMinutesPerDay and the second averageTasksPerDay at least the first,
the workload level of the second is at least as severe (on the tier scale
light < moderate < heavy < overloaded). -/
theorem workloadLevel_monotone (tasks1 : List Task) (s1 e1 : Nat) (p1 : PlanningPeriod)
    (tasks2 : List Task) (s2 e2 : Nat) (p2 : PlanningPeriod) (a1 a2 : WorkloadAnalysis)
    (h1 : calculateWorkloadAnalysis tasks1 s1 e1 p1 = some a1)
    (h2 : calculateWorkloadAnalysis tasks2 s2 e2 p2 = some a2)
    (hm : a1.averageMinutesPerDay = a2.averageMinutesPerDay)
    (ht : a1.averageTasksPerDay ≤ a2.averageTasksPerDay) :
    workloadTier a1.workloadLevel ≤ workloadTier a2.workloadLevel := by
  rw [calculateWorkloadAnalysis_level tasks1 s1 e1 p1 a1 h1,
    calculateWorkloadAnalysis_level tasks2 s2 e2 p2 a2 h2, hm]
  exact determineWorkloadLevel_mono _ _ _ ht

/-- Witness for claim C6: one 30-minute task versus two 15-minute tasks over
the same one-day range have equal average minutes and nondecreasing average
task count, and the tier comparison holds. -/
theorem workloadLevel_monotone_witness :
    workloadTier ((calculateWorkloadAnalysis oneTask30 0 0 .week).getD
        defaultAnalysis).workloadLevel ≤
      workloadTier ((calculateWorkloadAnalysis twoTasks15 0 0 .week).getD
        defaultAnalysis).workloadLevel :=
  workloadLevel_monotone oneTask30 0 0 .week twoTasks15 0 0 .week _ _ rfl rfl rfl
    (by show ((1 : ℕ) : ℚ) / ((1 : ℕ) : ℚ) ≤ ((2 : ℕ) : ℚ) / ((1 : ℕ) : ℚ); norm_num)

/-! ## Claim C9 -/

theorem suggestionForDate_confidence (task : TaskDraft) (existingTasks : List Task)
    (userPreferences : SchedulingPreferences) (date : Nat)
    (s : SmartSchedulingSuggestion)
    (h : suggestionForDate task existingTasks userPreferences date = some s) :
    300 < s.confidence := by
  simp only [suggestionForDate] at h
  split at h
  · next hc =>
    injection h with h
    subst h
    exact Nat.lt_min.mpr ⟨hc, by omega⟩
  · exact absurd h (by simp)

theorem suggestionsRaw_confidence (task : TaskDraft) (existingTasks : List Task)
    (dateRange : DateRange) (userPreferences : SchedulingPreferences) :
    ∀ s ∈ suggestionsRaw task existingTasks dateRange userPreferences,
      300 < s.confidence := by
  intro s hs
  obtain ⟨d, _, hd⟩ := List.mem_filterMap.mp hs
  exact suggestionForDate_confidence _ _ _ _ _ hd

/-- Claim C9: the returned suggestions all have confidence above 0.3 (300
thousandths), at most 5 are returned, they are sorted by descending
confidence, and each carries at most 3 alternatives drawn from the other
surviving candidates (different date, fields copied). -/
theorem generateSmartSchedulingSuggestions_props (task : TaskDraft)
    (existingTasks : List Task) (dateRange : DateRange)
    (userPreferences : SchedulingPreferences) :
    (∀ s ∈ generateSmartSchedulingSuggestions task existingTasks dateRange userPreferences,
        300 < s.confidence) ∧
    (generateSmartSchedulingSuggestions task existingTasks dateRange
        userPreferences).length ≤ 5 ∧
    (generateSmartSchedulingSuggestions task existingTasks dateRange
        userPreferences).Sorted (fun a b => b.confidence ≤ a.confidence) ∧
    (∀ s ∈ generateSmartSchedulingSuggestions task existingTasks dateRange userPreferences,
        s.alternatives.length ≤ 3 ∧
        ∀ alt ∈ s.alternatives,
          ∃ c ∈ suggestionsRaw task existingTasks dateRange userPreferences,
            c.suggestedDate ≠ s.suggestedDate ∧
            alt = ⟨c.suggestedDate, c.suggestedTime, c.confidence, c.reason⟩) := by
  haveI instTot : IsTotal SmartSchedulingSuggestion
      (fun a b => b.confidence ≤ a.confidence) :=
    ⟨fun a b => (le_total b.confidence a.confidence).imp id id⟩
  haveI instTrans : IsTrans SmartSchedulingSuggestion
      (fun a b => b.confidence ≤ a.confidence) :=
    ⟨fun a b c hab hbc => le_trans hbc hab⟩
  refine ⟨?_, ?_, ?_, ?_⟩
  · intro s hs
    obtain ⟨s0, hs0, rfl⟩ := List.mem_map.mp hs
    have hmem : s0 ∈ suggestionsRaw task existingTasks dateRange userPreferences :=
      (List.perm_insertionSort _ _).mem_iff.mp ((List.take_sublist _ _).subset hs0)
    exact suggestionsRaw_confidence task existingTasks dateRange userPreferences s0 hmem
  · simp only [generateSmartSchedulingSuggestions, List.length_map, List.length_take]
    exact min_le_left _ _
  · have hsorted : List.Pairwise
        (fun (a b : SmartSchedulingSuggestion) => b.confidence ≤ a.confidence)
        (List.insertionSort (fun a b => b.confidence ≤ a.confidence)
          (suggestionsRaw task existingTasks dateRange userPreferences)) :=
      List.sorted_insertionSort _ _
    have htake : List.Pairwise
        (fun (a b : SmartSchedulingSuggestion) => b.confidence ≤ a.confidence)
        ((List.insertionSort (fun a b => b.confidence ≤ a.confidence)
          (suggestionsRaw task existingTasks dateRange userPreferences)).take 5) :=
      List.Pairwise.sublist (List.take_sublist _ _) hsorted
    exact List.pairwise_map.mpr htake
  · intro s hs
    obtain ⟨s0, hs0, rfl⟩ := List.mem_map.mp hs
    constructor
    · simp only [List.length_map, List.length_take]
      exact min_le_left _ _
    · intro alt halt
      obtain ⟨c, hc, rfl⟩ := List.mem_map.mp halt
      have hcf : c ∈ (suggestionsRaw task existingTasks dateRange userPreferences).filter
          (fun x => x.suggestedDate != s0.suggestedDate) :=
        (List.take_sublist _ _).subset hc
      refine ⟨c, (List.mem_filter.mp hcf).1, ?_, rfl⟩
      have := (List.mem_filter.mp hcf).2
      simpa using this

/-- Witness for claim C9: a three-day range with no existing tasks yields a
nonempty suggestion list whose head has confidence above 300 thousandths. -/
theorem generateSmartSchedulingSuggestions_props_witness :
    300 < ((generateSmartSchedulingSuggestions sampleDraft [] ⟨0, 2⟩
        samplePreferences).headD defaultSuggestion).confidence :=
  (generateSmartSchedulingSuggestions_props sampleDraft [] ⟨0, 2⟩ samplePreferences).1 _
    (by decide)

end Momentum
